import Mathlib

/-!
Verification development for the FOXSIPADREGUI serial transport
(`src/uart_driver.py`, class `UART_Driver`) and the Session exclusivity
protocol described by the design document.

Modelling conventions:
* A pyserial `Serial` object is modelled by `SerialConn`, a behaviour
  oracle saying, for each primitive call, whether the call raises and
  what it returns.  `none` / `false` in an oracle field means the
  underlying call raises an exception.
* Python exceptions are modelled with `Except Unit`: each method body is
  translated into a `_body` function that may end in `Except.error ()`
  (an exception escaping the `try` block), and the public method wraps
  the body exactly as the source's `try/except` does.
* `self.conn` is only assigned by a successful `open_conn`; before that
  the attribute does not exist and reading it raises `AttributeError`.
  This is modelled by `conn : Option SerialConn` with `none` meaning
  "attribute absent".
* Calls actually made on the serial object are recorded in a trace of
  `SerialEvent`s so that call-order properties can be stated.
* Bytes are modelled as `List Nat`; pyserial constants are modelled by
  their runtime values (`PARITY_NONE = 'N'`, `STOPBITS_ONE = 1`,
  `EIGHTBITS = 8`); the `0.2` second timeout is the rational `0.2`.
-/

/-- Result of a Python call: `ok` is a normal return, `error` is a raised
exception escaping the expression. -/
abbrev PyResult (α : Type) := Except Unit α

/-- `true` iff the call returned normally (did not raise). -/
def pyOk {α : Type} : PyResult α → Bool
  | Except.ok _ => true
  | Except.error _ => false

/-- A call made on the underlying serial connection object. -/
inductive SerialEvent : Type where
  | flushOutput : SerialEvent
  | flushInput : SerialEvent
  | write (tx : List Nat) : SerialEvent
  | read (n : Nat) : SerialEvent
  | close : SerialEvent
  | inWaiting : SerialEvent
deriving DecidableEq, Repr

/-- Behaviour oracle for an open pyserial `Serial` object: for each
primitive, whether the call raises and, if not, what it returns.
`readResult n = some bs` models `conn.read(n)` returning the bytes `bs`
(fewer than `n` if the 0.2 s timeout elapsed first); `none` models the
read raising. -/
structure SerialConn : Type where
  readResult : Nat → Option (List Nat)
  writeOk : List Nat → Bool
  flushOutputOk : Bool
  flushInputOk : Bool
  closeOk : Bool
  inWaitingResult : Option Nat

/-- Port description as returned by `serial.tools.list_ports.comports()`;
the driver only reads the `device` field. -/
structure PortInfo : Type where
  device : String
deriving DecidableEq, Repr

/-- The parameter tuple passed to the `serial.Serial` constructor by
`open_conn`.  `parity`, `stopbits` and `bytesize` hold the runtime
values of the pyserial constants used by the source. -/
structure OpenRequest : Type where
  port : String
  baudrate : Nat
  parity : Char
  stopbits : Nat
  bytesize : Nat
  timeout : ℚ
deriving DecidableEq, Repr

/-- The operating-system environment: the ports visible at a given
moment and the outcome of a `serial.Serial` constructor call
(`none` = the constructor raises: port missing, busy, permission). -/
structure SerialEnv : Type where
  comports : List PortInfo
  openSerial : OpenRequest → Option SerialConn

/-- State of a `UART_Driver` instance: the port list snapshot taken in
`__init__`, and the `conn` attribute (`none` = never successfully
assigned, so reading it raises `AttributeError`). -/
structure UART_Driver : Type where
  comm_ports_list : List String
  conn : Option SerialConn

/-- `UART_Driver.__init__`: snapshots `sp.comports()` into
`comm_ports_list`; `self.conn` is not assigned. -/
def UART_Driver.init (env : SerialEnv) : UART_Driver :=
  { comm_ports_list := env.comports.map PortInfo.device
    conn := none }

/-- `getAvailablePorts`: returns the stored snapshot; touches nothing
else and consults the operating system again in no way. -/
def UART_Driver.getAvailablePorts (d : UART_Driver) : List String :=
  d.comm_ports_list

/-- The `OpenRequest` that `open_conn` hands to the `serial.Serial`
constructor for a given port name: all link parameters are literals in
the source. -/
def UART_Driver.openRequest (port : String) : OpenRequest :=
  { port := port
    baudrate := 115200
    parity := 'N'
    stopbits := 1
    bytesize := 8
    timeout := 0.2 }

/-- Body of the `try` block of `open_conn`: construct the serial object
(raising on failure, in which case `self.conn` is left unassigned) and
return `True`. -/
def UART_Driver.open_conn_body (env : SerialEnv) (d : UART_Driver)
    (port : String) : PyResult Bool × UART_Driver :=
  match env.openSerial (UART_Driver.openRequest port) with
  | some c => (Except.ok true, { d with conn := some c })
  | none => (Except.error (), d)

/-- `open_conn`: the `try/except` wrapper; on any exception it prints an
error and returns `False`. -/
def UART_Driver.open_conn (env : SerialEnv) (d : UART_Driver)
    (port : String) : PyResult Bool × UART_Driver :=
  match UART_Driver.open_conn_body env d port with
  | (Except.ok b, d') => (Except.ok b, d')
  | (Except.error _, d') => (Except.ok false, d')

/-- Body of the `try` block of `close_conn`: read `self.conn` (raising
`AttributeError` if absent) and call `close()` on it (raising if the
underlying close fails).  No driver attribute is modified. -/
def UART_Driver.close_conn_body (d : UART_Driver) :
    PyResult Unit × List SerialEvent :=
  match d.conn with
  | none => (Except.error (), [])
  | some c =>
      ((if c.closeOk then Except.ok () else Except.error ()),
       [SerialEvent.close])

/-- `close_conn`: the `try/except` wrapper; on any exception it prints
an error and returns normally. -/
def UART_Driver.close_conn (d : UART_Driver) :
    PyResult Unit × List SerialEvent :=
  match UART_Driver.close_conn_body d with
  | (Except.ok _, t) => (Except.ok (), t)
  | (Except.error _, t) => (Except.ok (), t)

/-- Body of the `try` block of `clear_tx_buffer`: read `self.conn` and
call `flushOutput()` on it. -/
def UART_Driver.clear_tx_buffer_body (d : UART_Driver) :
    PyResult Unit × List SerialEvent :=
  match d.conn with
  | none => (Except.error (), [])
  | some c =>
      ((if c.flushOutputOk then Except.ok () else Except.error ()),
       [SerialEvent.flushOutput])

/-- `clear_tx_buffer`: the `try/except` wrapper; exceptions are printed,
never re-raised. -/
def UART_Driver.clear_tx_buffer (d : UART_Driver) :
    PyResult Unit × List SerialEvent :=
  match UART_Driver.clear_tx_buffer_body d with
  | (Except.ok _, t) => (Except.ok (), t)
  | (Except.error _, t) => (Except.ok (), t)

/-- Body of the `try` block of `clear_rx_buffer`: read `self.conn` and
call `flushInput()` on it. -/
def UART_Driver.clear_rx_buffer_body (d : UART_Driver) :
    PyResult Unit × List SerialEvent :=
  match d.conn with
  | none => (Except.error (), [])
  | some c =>
      ((if c.flushInputOk then Except.ok () else Except.error ()),
       [SerialEvent.flushInput])

/-- `clear_rx_buffer`: the `try/except` wrapper; exceptions are printed,
never re-raised. -/
def UART_Driver.clear_rx_buffer (d : UART_Driver) :
    PyResult Unit × List SerialEvent :=
  match UART_Driver.clear_rx_buffer_body d with
  | (Except.ok _, t) => (Except.ok (), t)
  | (Except.error _, t) => (Except.ok (), t)

/-- Body of the `try` block of `send_bytes`: call `clear_tx_buffer()`
(which cannot raise), then `self.conn.write(tx)` (raising if `conn` is
absent or the write fails), then `clear_tx_buffer()` again, and return
`True`. -/
def UART_Driver.send_bytes_body (d : UART_Driver) (tx : List Nat) :
    PyResult Bool × List SerialEvent :=
  let t1 := (UART_Driver.clear_tx_buffer d).2
  match d.conn with
  | none => (Except.error (), t1)
  | some c =>
      if c.writeOk tx then
        let t2 := (UART_Driver.clear_tx_buffer d).2
        (Except.ok true, t1 ++ [SerialEvent.write tx] ++ t2)
      else
        (Except.error (), t1 ++ [SerialEvent.write tx])

/-- `send_bytes`: the `try/except` wrapper; on any exception it returns
`False`. -/
def UART_Driver.send_bytes (d : UART_Driver) (tx : List Nat) :
    PyResult Bool × List SerialEvent :=
  match UART_Driver.send_bytes_body d tx with
  | (Except.ok b, t) => (Except.ok b, t)
  | (Except.error _, t) => (Except.ok false, t)

/-- Body of the `try` block of `read_bytes`: call `self.conn.read(n)`
(raising if `conn` is absent or the read fails); on a normal return of
bytes `bs` — possibly fewer than `n` if the 0.2 s timeout elapsed —
set `rx_stat = True` and `rx_buf = bs`. -/
def UART_Driver.read_bytes_body (d : UART_Driver) (n : Nat) :
    PyResult (Bool × List Nat) × List SerialEvent :=
  match d.conn with
  | none => (Except.error (), [])
  | some c =>
      match c.readResult n with
      | some bs => (Except.ok (true, bs), [SerialEvent.read n])
      | none => (Except.error (), [SerialEvent.read n])

/-- `read_bytes`: the `try/except` wrapper; on any exception it returns
`(False, [])` (`rx_buf` keeps its initial value `[]`). -/
def UART_Driver.read_bytes (d : UART_Driver) (n : Nat) :
    PyResult (Bool × List Nat) × List SerialEvent :=
  match UART_Driver.read_bytes_body d n with
  | (Except.ok r, t) => (Except.ok r, t)
  | (Except.error _, t) => (Except.ok (false, []), t)

/-- Body of the `try` block of `get_unread_bytes`: return
`self.conn.inWaiting()` (raising if `conn` is absent or the query
fails). -/
def UART_Driver.get_unread_bytes_body (d : UART_Driver) :
    PyResult Int × List SerialEvent :=
  match d.conn with
  | none => (Except.error (), [])
  | some c =>
      match c.inWaitingResult with
      | some k => (Except.ok (k : Int), [SerialEvent.inWaiting])
      | none => (Except.error (), [SerialEvent.inWaiting])

/-- `get_unread_bytes`: the `try/except` wrapper; on any exception it
prints an error and returns `-1`. -/
def UART_Driver.get_unread_bytes (d : UART_Driver) :
    PyResult Int × List SerialEvent :=
  match UART_Driver.get_unread_bytes_body d with
  | (Except.ok k, t) => (Except.ok k, t)
  | (Except.error _, t) => (Except.ok (-1), t)

/-- Modelled from the spec: the Session component (the serialization
point, design document section 4.3) is not part of the transport source
file; its code lives in modules outside the repository snapshot.  A
calling thread is `idle`, or `waiting` for exclusive access to the wire
(step 2), or `inFlight` while it performs its send/receive exchange
(steps 3 to 6); step 7 releases exclusivity. -/
inductive Phase : Type where
  | idle : Phase
  | waiting : Phase
  | inFlight : Phase
deriving DecidableEq, Repr

/-- Pointwise update of a thread-phase assignment. -/
def updPhase (s : Nat → Phase) (t : Nat) (p : Phase) : Nat → Phase :=
  fun u => if u = t then p else s u

/-- Modelled from the spec: one step of the Session protocol.  A thread
may submit a Command (`idle → waiting`); a waiting thread acquires the
wire only when no thread at all is `inFlight` (exclusivity, step 2);
the thread holding the wire releases it when its exchange finishes
(step 7). -/
inductive SessionStep : (Nat → Phase) → (Nat → Phase) → Prop where
  | submit (s : Nat → Phase) (t : Nat) :
      s t = Phase.idle → SessionStep s (updPhase s t Phase.waiting)
  | acquire (s : Nat → Phase) (t : Nat) :
      s t = Phase.waiting → (∀ u, s u ≠ Phase.inFlight) →
      SessionStep s (updPhase s t Phase.inFlight)
  | release (s : Nat → Phase) (t : Nat) :
      s t = Phase.inFlight → SessionStep s (updPhase s t Phase.idle)

/-- The initial Session state: every thread idle, nothing on the wire. -/
def initSession : Nat → Phase := fun _ => Phase.idle

/-- Session states reachable from the initial state by protocol steps. -/
inductive SessionReachable : (Nat → Phase) → Prop where
  | init : SessionReachable initSession
  | step {s s' : Nat → Phase} :
      SessionReachable s → SessionStep s s' → SessionReachable s'

/-- At most one thread is performing a wire exchange. -/
def MutexInv (s : Nat → Phase) : Prop :=
  ∀ t u, s t = Phase.inFlight → s u = Phase.inFlight → t = u

/-- An environment with no ports and a `serial.Serial` constructor that
always raises (no such port). -/
def emptyEnv : SerialEnv :=
  { comports := [], openSerial := fun _ => none }

/-- A second environment, with a different port list but the same
always-raising constructor, to exhibit that `open_conn` consults the
environment only through the constructor call. -/
def otherEnv : SerialEnv :=
  { comports := [{ device := "COM9" }], openSerial := fun _ => none }

/-- A connection whose timed read always returns only the two bytes
`[1, 2]` (the instrument went silent after two bytes and the 0.2 s
timeout elapsed); everything else behaves normally. -/
def shortReadConn : SerialConn :=
  { readResult := fun _ => some [1, 2]
    writeOk := fun _ => true
    flushOutputOk := true
    flushInputOk := true
    closeOk := true
    inWaitingResult := some 2 }

/-- A driver holding `shortReadConn`. -/
def shortReadDriver : UART_Driver :=
  { comm_ports_list := [], conn := some shortReadConn }

/-- A connection whose buffer flushes raise but whose writes succeed,
and whose `inWaiting()` reports 3 pending bytes. -/
def flushFailConn : SerialConn :=
  { readResult := fun _ => some []
    writeOk := fun _ => true
    flushOutputOk := false
    flushInputOk := false
    closeOk := true
    inWaitingResult := some 3 }

/-- A driver holding `flushFailConn`. -/
def flushFailDriver : UART_Driver :=
  { comm_ports_list := [], conn := some flushFailConn }

theorem clear_tx_buffer_trace (d : UART_Driver) (c : SerialConn)
    (h : d.conn = some c) :
    (UART_Driver.clear_tx_buffer d).2 = [SerialEvent.flushOutput] := by
  unfold UART_Driver.clear_tx_buffer UART_Driver.clear_tx_buffer_body
  rw [h]
  cases hf : c.flushOutputOk <;> simp [hf]

theorem clear_tx_buffer_trace_noconn (d : UART_Driver)
    (h : d.conn = none) :
    (UART_Driver.clear_tx_buffer d).2 = [] := by
  unfold UART_Driver.clear_tx_buffer UART_Driver.clear_tx_buffer_body
  rw [h]

theorem open_conn_ports_eq (env : SerialEnv) (d : UART_Driver)
    (port : String) :
    ((UART_Driver.open_conn env d port).2).comm_ports_list =
      d.comm_ports_list := by
  unfold UART_Driver.open_conn UART_Driver.open_conn_body
  cases env.openSerial (UART_Driver.openRequest port) <;> rfl

/-- C1 (counterexample): with a connection whose timed read delivers only
2 of the 4 requested bytes (instrument silent, timeout elapsed),
`read_bytes` returns status `True` with the partial bytes — not the
failure status the claim requires for a short read. -/
theorem read_bytes_short_read_counterexample :
    UART_Driver.read_bytes shortReadDriver 4 =
      (Except.ok (true, [1, 2]), [SerialEvent.read 4]) ∧
    ([1, 2] : List Nat).length < 4 ∧
    ¬ ∃ bs, (UART_Driver.read_bytes shortReadDriver 4).1 =
      Except.ok (false, bs) := by
  refine ⟨rfl, by decide, ?_⟩
  rintro ⟨bs, hb⟩
  rw [show (UART_Driver.read_bytes shortReadDriver 4).1 =
        Except.ok (true, [1, 2]) from rfl] at hb
  simp at hb

/-- C1 (amended): `read_bytes d n` calls the 0.2 s-timed read; whenever
that read returns bytes `bs` — even fewer than `n` (timeout) — it
returns SUCCESS together with `bs`; it returns failure (with an empty
byte list) exactly when the read raises or no connection was ever
opened. -/
theorem read_bytes_status_spec (d : UART_Driver) (n : Nat) :
    (d.conn = none →
      UART_Driver.read_bytes d n = (Except.ok (false, []), [])) ∧
    (∀ c, d.conn = some c →
      (∀ bs, c.readResult n = some bs →
        UART_Driver.read_bytes d n =
          (Except.ok (true, bs), [SerialEvent.read n])) ∧
      (c.readResult n = none →
        UART_Driver.read_bytes d n =
          (Except.ok (false, []), [SerialEvent.read n]))) := by
  refine ⟨fun h => ?_, fun c h => ⟨fun bs hbs => ?_, fun hn => ?_⟩⟩
  · simp [UART_Driver.read_bytes, UART_Driver.read_bytes_body, h]
  · simp [UART_Driver.read_bytes, UART_Driver.read_bytes_body, h, hbs]
  · simp [UART_Driver.read_bytes, UART_Driver.read_bytes_body, h, hn]

/-- C1 (witness for the amended claim): on the short-read fixture the
amended claim yields success with the two collected bytes. -/
theorem read_bytes_status_spec_witness :
    UART_Driver.read_bytes shortReadDriver 4 =
      (Except.ok (true, [1, 2]), [SerialEvent.read 4]) :=
  ((read_bytes_status_spec shortReadDriver 4).2 shortReadConn rfl).1
    [1, 2] rfl

/-- C2: no public `UART_Driver` method propagates an exception: for
every driver state, environment and argument, each method's outer
result is a normal return (`pyOk`), because every method body is
wrapped in a catch-all `try/except`. -/
theorem uart_no_uncaught_fault (env : SerialEnv) (d : UART_Driver)
    (port : String) (tx : List Nat) (n : Nat) :
    pyOk (UART_Driver.open_conn env d port).1 = true ∧
    pyOk (UART_Driver.close_conn d).1 = true ∧
    pyOk (UART_Driver.clear_tx_buffer d).1 = true ∧
    pyOk (UART_Driver.clear_rx_buffer d).1 = true ∧
    pyOk (UART_Driver.send_bytes d tx).1 = true ∧
    pyOk (UART_Driver.read_bytes d n).1 = true ∧
    pyOk (UART_Driver.get_unread_bytes d).1 = true := by
  refine ⟨?_, ?_, ?_, ?_, ?_, ?_, ?_⟩
  · unfold UART_Driver.open_conn
    split <;> rfl
  · unfold UART_Driver.close_conn
    split <;> rfl
  · unfold UART_Driver.clear_tx_buffer
    split <;> rfl
  · unfold UART_Driver.clear_rx_buffer
    split <;> rfl
  · unfold UART_Driver.send_bytes
    split <;> rfl
  · unfold UART_Driver.read_bytes
    split <;> rfl
  · unfold UART_Driver.get_unread_bytes
    split <;> rfl

/-- C3: `open_conn` always hands the `serial.Serial` constructor exactly
the fixed link parameters 115200 baud, no parity (`'N'`), 1 stop bit,
8 data bits, 0.2 s read timeout — only the port name varies — and its
behaviour depends on the environment only through the constructor's
answer at that one fixed request (so no caller can alter the
parameters). -/
theorem open_conn_fixed_params (port : String) :
    UART_Driver.openRequest port =
      { port := port, baudrate := 115200, parity := 'N', stopbits := 1,
        bytesize := 8, timeout := 0.2 } ∧
    ∀ (e₁ e₂ : SerialEnv) (d : UART_Driver),
      e₁.openSerial (UART_Driver.openRequest port) =
        e₂.openSerial (UART_Driver.openRequest port) →
      UART_Driver.open_conn e₁ d port = UART_Driver.open_conn e₂ d port := by
  refine ⟨rfl, fun e₁ e₂ d h => ?_⟩
  unfold UART_Driver.open_conn UART_Driver.open_conn_body
  rw [h]

/-- C3 (witness): two environments with different visible ports but the
same constructor outcome at the fixed request give the same `open_conn`
result. -/
theorem open_conn_fixed_params_witness :
    UART_Driver.open_conn emptyEnv (UART_Driver.init emptyEnv) "COM3" =
      UART_Driver.open_conn otherEnv (UART_Driver.init emptyEnv) "COM3" :=
  (open_conn_fixed_params "COM3").2 emptyEnv otherEnv
    (UART_Driver.init emptyEnv) rfl

/-- C4: when the `serial.Serial` constructor raises (port missing, busy,
permission), `open_conn` returns `False` normally — no exception escapes
— and the driver is left exactly as it was, so a `conn` that was never
assigned stays unassigned (Connection remains Closed). -/
theorem open_conn_failure_leaves_closed (env : SerialEnv)
    (d : UART_Driver) (port : String)
    (h : env.openSerial (UART_Driver.openRequest port) = none) :
    UART_Driver.open_conn env d port = (Except.ok false, d) ∧
    (d.conn = none → ((UART_Driver.open_conn env d port).2).conn = none) := by
  have hmain : UART_Driver.open_conn env d port = (Except.ok false, d) := by
    unfold UART_Driver.open_conn UART_Driver.open_conn_body
    rw [h]
  exact ⟨hmain, fun hc => by rw [hmain]; exact hc⟩

/-- C4 (witness): opening `"COM_DOES_NOT_EXIST"` in an environment whose
constructor always raises returns `False` and leaves the freshly
constructed driver (no `conn`) untouched. -/
theorem open_conn_failure_leaves_closed_witness :
    UART_Driver.open_conn emptyEnv (UART_Driver.init emptyEnv)
        "COM_DOES_NOT_EXIST" =
      (Except.ok false, UART_Driver.init emptyEnv) :=
  (open_conn_failure_leaves_closed emptyEnv (UART_Driver.init emptyEnv)
    "COM_DOES_NOT_EXIST" rfl).1

/-- C5: with a connection present and a write that completes,
`send_bytes` performs exactly flush-outbound, write, flush-outbound, in
that order, and returns `True`; it returns `False` (never an exception)
when the write raises or when no connection was ever opened. -/
theorem send_bytes_spec (d : UART_Driver) (tx : List Nat) :
    (∀ c, d.conn = some c → c.writeOk tx = true →
      UART_Driver.send_bytes d tx =
        (Except.ok true,
         [SerialEvent.flushOutput, SerialEvent.write tx,
          SerialEvent.flushOutput])) ∧
    (∀ c, d.conn = some c → c.writeOk tx = false →
      (UART_Driver.send_bytes d tx).1 = Except.ok false) ∧
    (d.conn = none → (UART_Driver.send_bytes d tx).1 = Except.ok false) := by
  refine ⟨fun c h hw => ?_, fun c h hw => ?_, fun h => ?_⟩
  · simp [UART_Driver.send_bytes, UART_Driver.send_bytes_body, h, hw,
      clear_tx_buffer_trace d c h]
  · simp [UART_Driver.send_bytes, UART_Driver.send_bytes_body, h, hw]
  · simp [UART_Driver.send_bytes, UART_Driver.send_bytes_body, h]

/-- C5 (witness): sending `[7, 8]` over the short-read fixture (whose
write succeeds) produces exactly the flush-write-flush trace and
`True`. -/
theorem send_bytes_spec_witness :
    UART_Driver.send_bytes shortReadDriver [7, 8] =
      (Except.ok true,
       [SerialEvent.flushOutput, SerialEvent.write [7, 8],
        SerialEvent.flushOutput]) :=
  (send_bytes_spec shortReadDriver [7, 8]).1 shortReadConn rfl rfl

/-- C6: `close_conn` never fails the caller: in every driver state —
no connection ever opened (`conn` absent), an open connection, a
connection whose underlying `close()` itself raises — it returns
normally (the error is printed, not propagated).  The method assigns no
attribute, so the driver state is unchanged and a repeated call is the
very same call: idempotent. -/
theorem close_conn_never_raises (d : UART_Driver) :
    (UART_Driver.close_conn d).1 = Except.ok () := by
  unfold UART_Driver.close_conn
  split <;> rfl

/-- C7: buffer flushes never abort an exchange: `clear_tx_buffer` and
`clear_rx_buffer` return normally for every driver state (flush errors
are printed, not propagated), and even when the connection's
`flushOutput()` raises, `send_bytes` still attempts — and here
completes — the write, returning `True` with the full
flush-write-flush call trace. -/
theorem buffer_flush_never_aborts (d : UART_Driver) :
    (UART_Driver.clear_tx_buffer d).1 = Except.ok () ∧
    (UART_Driver.clear_rx_buffer d).1 = Except.ok () ∧
    (∀ c tx, d.conn = some c → c.flushOutputOk = false →
      c.writeOk tx = true →
      UART_Driver.send_bytes d tx =
        (Except.ok true,
         [SerialEvent.flushOutput, SerialEvent.write tx,
          SerialEvent.flushOutput])) := by
  refine ⟨?_, ?_, fun c tx h hf hw => ?_⟩
  · unfold UART_Driver.clear_tx_buffer
    split <;> rfl
  · unfold UART_Driver.clear_rx_buffer
    split <;> rfl
  · simp [UART_Driver.send_bytes, UART_Driver.send_bytes_body, h, hw,
      clear_tx_buffer_trace d c h]

/-- C7 (witness): on a connection whose flushes raise but whose write
succeeds, `send_bytes [7, 8]` still writes and returns `True`. -/
theorem buffer_flush_never_aborts_witness :
    UART_Driver.send_bytes flushFailDriver [7, 8] =
      (Except.ok true,
       [SerialEvent.flushOutput, SerialEvent.write [7, 8],
        SerialEvent.flushOutput]) :=
  (buffer_flush_never_aborts flushFailDriver).2.2 flushFailConn [7, 8]
    rfl rfl rfl

/-- C8: `get_unread_bytes` returns the sentinel `-1` (never an
exception) when no connection was ever opened or when the underlying
`inWaiting()` query raises; when the connection answers, it returns the
count of bytes buffered for read. -/
theorem get_unread_bytes_spec (d : UART_Driver) :
    (d.conn = none →
      (UART_Driver.get_unread_bytes d).1 = Except.ok (-1)) ∧
    (∀ c, d.conn = some c →
      (c.inWaitingResult = none →
        (UART_Driver.get_unread_bytes d).1 = Except.ok (-1)) ∧
      (∀ k, c.inWaitingResult = some k →
        (UART_Driver.get_unread_bytes d).1 =
          Except.ok ((k : Nat) : Int))) := by
  refine ⟨fun h => ?_, fun c h => ⟨fun hn => ?_, fun k hk => ?_⟩⟩
  · simp [UART_Driver.get_unread_bytes, UART_Driver.get_unread_bytes_body, h]
  · simp [UART_Driver.get_unread_bytes, UART_Driver.get_unread_bytes_body,
      h, hn]
  · simp [UART_Driver.get_unread_bytes, UART_Driver.get_unread_bytes_body,
      h, hk]

/-- C8 (witness): with 3 bytes pending, `get_unread_bytes` reports 3. -/
theorem get_unread_bytes_spec_witness :
    (UART_Driver.get_unread_bytes flushFailDriver).1 =
      Except.ok ((3 : Nat) : Int) :=
  ((get_unread_bytes_spec flushFailDriver).2 flushFailConn rfl).2 3 rfl

/-- C9: in every Session state reachable by the protocol — submit,
acquire the wire only when nobody holds it, release — at most one
thread is `inFlight`, i.e. at most one exchange touches the wire at any
time, so the Transport never sees two Commands' send/receive calls
interleaved. -/
theorem session_mutual_exclusion (s : Nat → Phase)
    (h : SessionReachable s) : MutexInv s := by
  induction h with
  | init =>
      intro a b ha _
      exact absurd ha (by simp [initSession])
  | step hr hstep ih =>
      cases hstep with
      | submit t hidle =>
          intro a b ha hb
          simp only [updPhase] at ha hb
          by_cases hat : a = t
          · rw [if_pos hat] at ha
            exact absurd ha (by simp)
          · rw [if_neg hat] at ha
            by_cases hbt : b = t
            · rw [if_pos hbt] at hb
              exact absurd hb (by simp)
            · rw [if_neg hbt] at hb
              exact ih a b ha hb
      | acquire t hw hfree =>
          intro a b ha hb
          simp only [updPhase] at ha hb
          by_cases hat : a = t
          · by_cases hbt : b = t
            · rw [hat, hbt]
            · rw [if_neg hbt] at hb
              exact absurd hb (hfree b)
          · rw [if_neg hat] at ha
            exact absurd ha (hfree a)
      | release t hf =>
          intro a b ha hb
          simp only [updPhase] at ha hb
          by_cases hat : a = t
          · rw [if_pos hat] at ha
            exact absurd ha (by simp)
          · rw [if_neg hat] at ha
            by_cases hbt : b = t
            · rw [if_pos hbt] at hb
              exact absurd hb (by simp)
            · rw [if_neg hbt] at hb
              exact ih a b ha hb

/-- C9 (witness): the initial state is reachable and satisfies mutual
exclusion. -/
theorem session_mutual_exclusion_witness : MutexInv initSession :=
  session_mutual_exclusion initSession SessionReachable.init

/-- C10: `getAvailablePorts` returns exactly the snapshot taken at
construction, is a pure read of the stored list, and `open_conn` (the
only public method that modifies the driver at all) leaves the list
untouched — so any two calls, at any two times, return equal lists
regardless of how the operating system's visible ports have changed. -/
theorem getAvailablePorts_snapshot :
    (∀ env : SerialEnv,
      UART_Driver.getAvailablePorts (UART_Driver.init env) =
        env.comports.map PortInfo.device) ∧
    (∀ d : UART_Driver,
      UART_Driver.getAvailablePorts d = d.comm_ports_list) ∧
    (∀ (env : SerialEnv) (d : UART_Driver) (port : String),
      UART_Driver.getAvailablePorts (UART_Driver.open_conn env d port).2 =
        UART_Driver.getAvailablePorts d) :=
  ⟨fun _ => rfl, fun _ => rfl,
   fun env d port => open_conn_ports_eq env d port⟩
